import Mathlib

/-!
Verification of the signer WebSocket client
(`manta-pay/src/signer/client/websocket.rs`).

The development embeds the client's single exchange primitive `Client::send`
and its six public operations (`sync`, `sign`, `address`, `transaction_data`,
`identity_proof`, `sign_with_transaction_data`) as pure functions over an
explicit channel state.  The external `serde_json` text layer is modelled by a
concrete JSON value type with an executable renderer and parser; the
serialization of the domain payload types (which live in collaborating crates)
is abstracted as a `Serde` codec parameter.
-/

namespace MantaPay

/-- JSON values, modelling the `serde_json` data model used by the client for
its wire format.  Numbers are modelled as integers; the claims under study do
not depend on numeric fine structure. -/
inductive Json where
  | null
  | bool (b : Bool)
  | num (n : Int)
  | str (s : String)
  | arr (elems : List Json)
  | obj (fields : List (String × Json))

mutual

def Json.decEq : (a b : Json) → Decidable (a = b)
  | .null, .null => isTrue rfl
  | .bool a, .bool b =>
    if h : a = b then isTrue (by rw [h]) else isFalse (fun hc => h (Json.bool.inj hc))
  | .num a, .num b =>
    if h : a = b then isTrue (by rw [h]) else isFalse (fun hc => h (Json.num.inj hc))
  | .str a, .str b =>
    if h : a = b then isTrue (by rw [h]) else isFalse (fun hc => h (Json.str.inj hc))
  | .arr a, .arr b =>
    match Json.decEqElems a b with
    | isTrue h => isTrue (by rw [h])
    | isFalse h => isFalse (fun hc => h (Json.arr.inj hc))
  | .obj a, .obj b =>
    match Json.decEqFields a b with
    | isTrue h => isTrue (by rw [h])
    | isFalse h => isFalse (fun hc => h (Json.obj.inj hc))
  | .null, .bool _ | .null, .num _ | .null, .str _ | .null, .arr _ | .null, .obj _
  | .bool _, .null | .bool _, .num _ | .bool _, .str _ | .bool _, .arr _ | .bool _, .obj _
  | .num _, .null | .num _, .bool _ | .num _, .str _ | .num _, .arr _ | .num _, .obj _
  | .str _, .null | .str _, .bool _ | .str _, .num _ | .str _, .arr _ | .str _, .obj _
  | .arr _, .null | .arr _, .bool _ | .arr _, .num _ | .arr _, .str _ | .arr _, .obj _
  | .obj _, .null | .obj _, .bool _ | .obj _, .num _ | .obj _, .str _ | .obj _, .arr _ =>
      isFalse (fun hc => Json.noConfusion hc)

def Json.decEqElems : (a b : List Json) → Decidable (a = b)
  | [], [] => isTrue rfl
  | a :: as, b :: bs =>
    match Json.decEq a b, Json.decEqElems as bs with
    | isTrue h1, isTrue h2 => isTrue (by rw [h1, h2])
    | isFalse h1, _ => isFalse (fun hc => h1 (List.head_eq_of_cons_eq hc))
    | _, isFalse h2 => isFalse (fun hc => h2 (List.tail_eq_of_cons_eq hc))
  | [], _ :: _ => isFalse (fun hc => List.noConfusion hc)
  | _ :: _, [] => isFalse (fun hc => List.noConfusion hc)

def Json.decEqFields : (a b : List (String × Json)) → Decidable (a = b)
  | [], [] => isTrue rfl
  | (k, v) :: as, (l, w) :: bs =>
    match instDecidableEqString k l, Json.decEq v w, Json.decEqFields as bs with
    | isTrue h0, isTrue h1, isTrue h2 => isTrue (by rw [h0, h1, h2])
    | isFalse h0, _, _ =>
        isFalse (fun hc => h0 (congrArg Prod.fst (List.head_eq_of_cons_eq hc)))
    | _, isFalse h1, _ =>
        isFalse (fun hc => h1 (congrArg Prod.snd (List.head_eq_of_cons_eq hc)))
    | _, _, isFalse h2 => isFalse (fun hc => h2 (List.tail_eq_of_cons_eq hc))
  | [], _ :: _ => isFalse (fun hc => List.noConfusion hc)
  | _ :: _, [] => isFalse (fun hc => List.noConfusion hc)

end

instance : DecidableEq Json := Json.decEq

instance {ε α : Type} [DecidableEq ε] [DecidableEq α] : DecidableEq (Except ε α) :=
  fun a b =>
    match a, b with
    | .ok x, .ok y => decidable_of_iff (x = y) (by simp)
    | .error x, .error y => decidable_of_iff (x = y) (by simp)
    | .ok _, .error _ => isFalse (by simp)
    | .error _, .ok _ => isFalse (by simp)

/-- Escape one character for a JSON string literal, in the style of
`serde_json`: quote, backslash and the common control characters get a
backslash escape; everything else is emitted verbatim. -/
def escapeChar (c : Char) : List Char :=
  if c = Char.ofNat 34 then [Char.ofNat 92, Char.ofNat 34]
  else if c = Char.ofNat 92 then [Char.ofNat 92, Char.ofNat 92]
  else if c = Char.ofNat 10 then [Char.ofNat 92, Char.ofNat 110]
  else if c = Char.ofNat 9 then [Char.ofNat 92, Char.ofNat 116]
  else if c = Char.ofNat 13 then [Char.ofNat 92, Char.ofNat 114]
  else [c]

/-- Characters of a quoted and escaped JSON string literal. -/
def quoteChars (s : String) : List Char :=
  Char.ofNat 34 :: s.toList.foldr (fun c acc => escapeChar c ++ acc) [Char.ofNat 34]

/-- Decimal digits of a natural number (most significant first); the first
argument is recursion fuel, always called with fuel `n + 1`. -/
def natDigits : Nat → Nat → List Char
  | 0, _ => []
  | fuel + 1, n =>
    if n < 10 then [Char.ofNat (48 + n)]
    else natDigits fuel (n / 10) ++ [Char.ofNat (48 + n % 10)]

/-- Decimal representation of an integer. -/
def intChars : Int → List Char
  | .ofNat n => natDigits (n + 1) n
  | .negSucc n => Char.ofNat 45 :: natDigits (n + 2) (n + 1)

mutual

/-- Characters of the canonical `serde_json` rendering of a value. -/
def Json.renderChars : Json → List Char
  | .null => String.toList ("null")
  | .bool true => String.toList ("true")
  | .bool false => String.toList ("false")
  | .num n => intChars n
  | .str s => quoteChars s
  | .arr elems => Char.ofNat 91 :: Json.renderElems elems ++ [Char.ofNat 93]
  | .obj fields => Char.ofNat 123 :: Json.renderFields fields ++ [Char.ofNat 125]

def Json.renderElems : List Json → List Char
  | [] => []
  | [x] => Json.renderChars x
  | x :: y :: rest => Json.renderChars x ++ Char.ofNat 44 :: Json.renderElems (y :: rest)

def Json.renderFields : List (String × Json) → List Char
  | [] => []
  | [(k, v)] => quoteChars k ++ Char.ofNat 58 :: Json.renderChars v
  | (k, v) :: y :: rest =>
      quoteChars k ++ Char.ofNat 58 :: Json.renderChars v
        ++ Char.ofNat 44 :: Json.renderFields (y :: rest)

end

/-- Render a JSON value to its compact textual form, modelling
`serde_json::to_string`'s output layer. -/
def Json.render (j : Json) : String :=
  String.mk (Json.renderChars j)

/-- Drop leading JSON whitespace. -/
def skipWs : List Char → List Char
  | [] => []
  | c :: cs =>
    if c = Char.ofNat 32 ∨ c = Char.ofNat 10 ∨ c = Char.ofNat 9 ∨ c = Char.ofNat 13 then
      skipWs cs
    else c :: cs

/-- Match a literal character sequence at the head of the input. -/
def stripLit : List Char → List Char → Option (List Char)
  | [], cs => some cs
  | _, [] => none
  | l :: ls, c :: cs => if c = l then stripLit ls cs else none

/-- Parse the body of a JSON string literal after its opening quote, undoing
the escapes produced by `escapeChar`; returns the decoded characters and the
remaining input after the closing quote. -/
def parseStringBody : List Char → Except String (List Char × List Char)
  | [] => .error ("unterminated string")
  | c :: cs =>
    if c = Char.ofNat 34 then .ok ([], cs)
    else if c = Char.ofNat 92 then
      match cs with
      | [] => .error ("unterminated escape")
      | e :: cs2 =>
        let d :=
          if e = Char.ofNat 110 then Char.ofNat 10
          else if e = Char.ofNat 116 then Char.ofNat 9
          else if e = Char.ofNat 114 then Char.ofNat 13
          else e
        match parseStringBody cs2 with
        | .ok (body, rest) => .ok (d :: body, rest)
        | .error err => .error err
    else
      match parseStringBody cs with
      | .ok (body, rest) => .ok (c :: body, rest)
      | .error err => .error err

/-- Split the longest prefix of decimal digits off the input. -/
def takeDigits : List Char → List Char × List Char
  | [] => ([], [])
  | c :: cs =>
    if c.isDigit then
      let (ds, rest) := takeDigits cs
      (c :: ds, rest)
    else ([], c :: cs)

/-- Numeric value of a digit sequence. -/
def digitsToNat (ds : List Char) : Nat :=
  ds.foldl (fun acc c => acc * 10 + (c.toNat - 48)) 0

/-- Parse a JSON integer whose first character is a minus sign or a digit. -/
def parseNum : List Char → Except String (Json × List Char)
  | [] => .error ("unexpected end of input")
  | c :: cs =>
    if c = Char.ofNat 45 then
      match takeDigits cs with
      | ([], _) => .error ("expected digits")
      | (ds, rest) => .ok (.num (-(digitsToNat ds : Int)), rest)
    else
      match takeDigits (c :: cs) with
      | ([], _) => .error ("expected digits")
      | (ds, rest) => .ok (.num (digitsToNat ds : Int), rest)

mutual

/-- Parse one JSON value; the first argument is recursion fuel bounding the
nesting depth. -/
def parseVal : Nat → List Char → Except String (Json × List Char)
  | 0, _ => .error ("recursion limit exceeded")
  | fuel + 1, input =>
    let cs := skipWs input
    match stripLit (String.toList ("null")) cs with
    | some rest => .ok (.null, rest)
    | none =>
    match stripLit (String.toList ("true")) cs with
    | some rest => .ok (.bool true, rest)
    | none =>
    match stripLit (String.toList ("false")) cs with
    | some rest => .ok (.bool false, rest)
    | none =>
    match cs with
    | [] => .error ("unexpected end of input")
    | c :: rest =>
      if c = Char.ofNat 34 then
        match parseStringBody rest with
        | .ok (body, rest2) => .ok (.str (String.mk body), rest2)
        | .error e => .error e
      else if c = Char.ofNat 91 then
        match skipWs rest with
        | d :: rest2 =>
          if d = Char.ofNat 93 then .ok (.arr [], rest2)
          else
            match parseElems fuel (d :: rest2) with
            | .ok (elems, rest3) => .ok (.arr elems, rest3)
            | .error e => .error e
        | [] => .error ("unterminated array")
      else if c = Char.ofNat 123 then
        match skipWs rest with
        | d :: rest2 =>
          if d = Char.ofNat 125 then .ok (.obj [], rest2)
          else
            match parseFields fuel (d :: rest2) with
            | .ok (fields, rest3) => .ok (.obj fields, rest3)
            | .error e => .error e
        | [] => .error ("unterminated object")
      else if c = Char.ofNat 45 then parseNum (c :: rest)
      else if c.isDigit then parseNum (c :: rest)
      else .error ("unexpected character")

/-- Parse the comma-separated elements of a non-empty JSON array, consuming the
closing bracket. -/
def parseElems : Nat → List Char → Except String (List Json × List Char)
  | 0, _ => .error ("recursion limit exceeded")
  | fuel + 1, cs =>
    match parseVal fuel cs with
    | .error e => .error e
    | .ok (x, rest) =>
      match skipWs rest with
      | c :: rest2 =>
        if c = Char.ofNat 44 then
          match parseElems fuel rest2 with
          | .ok (xs, rest3) => .ok (x :: xs, rest3)
          | .error e => .error e
        else if c = Char.ofNat 93 then .ok ([x], rest2)
        else .error ("expected comma or closing bracket")
      | [] => .error ("unterminated array")

/-- Parse the comma-separated fields of a non-empty JSON object, consuming the
closing brace. -/
def parseFields : Nat → List Char → Except String (List (String × Json) × List Char)
  | 0, _ => .error ("recursion limit exceeded")
  | fuel + 1, cs =>
    match skipWs cs with
    | c :: rest =>
      if c = Char.ofNat 34 then
        match parseStringBody rest with
        | .error e => .error e
        | .ok (key, rest2) =>
          match skipWs rest2 with
          | d :: rest3 =>
            if d = Char.ofNat 58 then
              match parseVal fuel rest3 with
              | .error e => .error e
              | .ok (v, rest4) =>
                match skipWs rest4 with
                | e :: rest5 =>
                  if e = Char.ofNat 44 then
                    match parseFields fuel rest5 with
                    | .ok (fs, rest6) => .ok ((String.mk key, v) :: fs, rest6)
                    | .error err => .error err
                  else if e = Char.ofNat 125 then .ok ([(String.mk key, v)], rest5)
                  else .error ("expected comma or closing brace")
                | [] => .error ("unterminated object")
            else .error ("expected colon")
          | [] => .error ("unterminated object")
      else .error ("key must be a string")
    | [] => .error ("unterminated object")

end

/-- Parse a complete JSON document, modelling `serde_json::from_str`'s text
layer; trailing non-whitespace input is an error. -/
def Json.parse (s : String) : Except String Json :=
  match parseVal (s.length + 1) s.toList with
  | .ok (j, rest) =>
    match skipWs rest with
    | [] => .ok j
    | _ => .error ("trailing characters")
  | .error e => .error e

/-- A `serde` codec for a payload type: serialization to and deserialization
from the JSON data model.  The domain request/response types of the client
(`SyncRequest`, `SignResponse`, `Address`, ...) live in collaborating crates
and are passed through opaquely, so their codecs are parameters of the
development. -/
structure Serde (α : Type) where
  ser : α → Except String Json
  de : Json → Except String α

/-- The request envelope (`Request<R>` in the source): pairs the fixed command
identifier with the command-specific request body. -/
structure Request (R : Type) where
  command : String
  request : R
deriving DecidableEq

/-- Field name of the command tag in the serialized envelope. -/
def commandKey : String := "command"

/-- Field name of the request body in the serialized envelope. -/
def requestKey : String := "request"

/-- Serialization of the envelope derived from its struct shape: an object
with exactly the two fields `command` and `request`, in declaration order. -/
def Request.toJson {R : Type} (sR : Serde R) (q : Request R) : Except String Json :=
  match sR.ser q.request with
  | .ok j => .ok (Json.obj [(commandKey, Json.str q.command), (requestKey, j)])
  | .error e => .error e

/-- Field loop of the derived envelope deserializer.  The derive carries
`deny_unknown_fields`, so an unrecognized key is an error; duplicate and
missing fields are errors as in `serde`. -/
def Request.fromJsonFields {R : Type} (sR : Serde R) :
    List (String × Json) → Option String → Option R → Except String (Request R)
  | [], some c, some r => .ok ⟨c, r⟩
  | [], none, _ => .error ("missing field command")
  | [], some _, none => .error ("missing field request")
  | (k, v) :: rest, copt, ropt =>
    if k = commandKey then
      match copt with
      | some _ => .error ("duplicate field command")
      | none =>
        match v with
        | .str c => Request.fromJsonFields sR rest (some c) ropt
        | _ => .error ("invalid type of field command")
    else if k = requestKey then
      match ropt with
      | some _ => .error ("duplicate field request")
      | none =>
        match sR.de v with
        | .ok r => Request.fromJsonFields sR rest copt (some r)
        | .error e => .error e
    else .error ("unknown field")

/-- Deserialization of the envelope derived from its struct shape. -/
def Request.fromJson {R : Type} (sR : Serde R) : Json → Except String (Request R)
  | .obj fields => Request.fromJsonFields sR fields none none
  | _ => .error ("invalid type: expected a map")

/-- The derived codec for `Request<R>`, given a codec for `R`. -/
def serdeRequest {R : Type} (sR : Serde R) : Serde (Request R) :=
  ⟨Request.toJson sR, Request.fromJson sR⟩

/-- Model of `serde_json::to_string`: serialize to the JSON data model, then
render; fails when the value cannot be encoded. -/
def SerdeJson.to_string {α : Type} (sα : Serde α) (v : α) : Except String String :=
  match sα.ser v with
  | .ok j => .ok (Json.render j)
  | .error e => .error e

/-- Model of `serde_json::from_str`: parse the text, then deserialize from the
JSON data model. -/
def SerdeJson.from_str {α : Type} (sα : Serde α) (s : String) : Except String α :=
  match Json.parse s with
  | .ok j => sα.de j
  | .error e => .error e

/-- WebSocket messages (`tungstenite::Message`): text, binary, ping, pong,
close (with an optional close frame of code and reason) and raw frame. -/
inductive Msg where
  | text (s : String)
  | binary (bytes : List Nat)
  | ping (bytes : List Nat)
  | pong (bytes : List Nat)
  | close (frame : Option (Nat × String))
  | frame (raw : List Nat)
deriving DecidableEq

/-- The client error type (`Error` in the source): the inbound message was not
text, the stream closed while waiting, a `serde_json` failure, or an
underlying WebSocket transport error (transport errors are modelled by their
message string). -/
inductive Error where
  | invalidMessageFormat
  | endOfStream
  | serializationError (e : String)
  | webSocket (e : String)
deriving DecidableEq

/-- Observable state of the WebSocket channel owned by the client, as the
exchange sees it: whether the next sink send fails (and with which transport
error), the queue of pending inbound stream items (each either a message or a
transport error; the stream ends after the queue), and the log of messages
successfully sent so far. -/
structure ChannelState where
  sendFail : Option String
  inbound : List (Except String Msg)
  sent : List Msg
deriving DecidableEq

/-- `Client::send`: serialize the `Request` envelope (aborting with
`SerializationError` before anything is transmitted if encoding fails), send
it as a text message (propagating a transport failure as `WebSocket`), then
wait for the next inbound item and classify it exactly as the source's match:
a text message is deserialized (`Ok` on success, `SerializationError` on
decode failure), any other message is `InvalidMessageFormat`, a stream error
is `WebSocket`, and end of stream is `EndOfStream`. -/
def Client.send {S D : Type} (sS : Serde S) (sD : Serde D)
    (ch : ChannelState) (command : String) (request : S) :
    Except Error D × ChannelState :=
  match SerdeJson.to_string (serdeRequest sS) ⟨command, request⟩ with
  | .error e => (.error (.serializationError e), ch)
  | .ok text =>
    match ch.sendFail with
    | some err => (.error (.webSocket err), ch)
    | none =>
      let sent1 := ch.sent ++ [Msg.text text]
      match ch.inbound with
      | .ok (Msg.text message) :: rest =>
        match SerdeJson.from_str sD message with
        | .ok response => (.ok response, ⟨none, rest, sent1⟩)
        | .error e => (.error (.serializationError e), ⟨none, rest, sent1⟩)
      | .ok _ :: rest => (.error .invalidMessageFormat, ⟨none, rest, sent1⟩)
      | .error err :: rest => (.error (.webSocket err), ⟨none, rest, sent1⟩)
      | [] => (.error .endOfStream, ⟨none, [], sent1⟩)

/-- Modelled from the spec: the sentinel payload type of the `address`
operation.  Its Rust type `GetRequest` is declared in `manta-accounting`
(outside the sources provided); per the spec it is a sentinel "get" marker
carrying no data. -/
inductive GetRequest where
  | Get
deriving DecidableEq

/-- Modelled from the spec: the codec of [GetRequest], serializing the
sentinel as the string "get". -/
def serdeGetRequest : Serde GetRequest :=
  ⟨fun _ => .ok (Json.str ("get")),
   fun j =>
     match j with
     | .str s => if s = ("get") then .ok GetRequest.Get else .error ("unknown variant")
     | _ => .error ("invalid type: expected a string")⟩

/-- The `serde` codec of `Option<T>`: `None` is JSON `null`, `Some` is the
bare payload; on the way in, `null` decodes to `None` and anything else is
decoded as the payload type. -/
def serdeOption {α : Type} (sα : Serde α) : Serde (Option α) :=
  ⟨fun o =>
     match o with
     | none => .ok Json.null
     | some a => sα.ser a,
   fun j =>
     match j with
     | Json.null => .ok none
     | _ =>
       match sα.de j with
       | .ok a => .ok (some a)
       | .error e => .error e⟩

/-- `Connection::sync`: a thin wrapper delegating to `Client::send` with the
fixed command identifier `sync`. -/
def Client.sync {S D : Type} (sS : Serde S) (sD : Serde D)
    (ch : ChannelState) (request : S) : Except Error D × ChannelState :=
  Client.send sS sD ch ("sync") request

/-- `Connection::sign`: delegates to `Client::send` with command `sign`. -/
def Client.sign {S D : Type} (sS : Serde S) (sD : Serde D)
    (ch : ChannelState) (request : S) : Except Error D × ChannelState :=
  Client.send sS sD ch ("sign") request

/-- `Connection::address`: delegates to `Client::send` with command `address`
and the sentinel `GetRequest::Get` payload; the reply is an optional
address. -/
def Client.address {A : Type} (sA : Serde A) (ch : ChannelState) :
    Except Error (Option A) × ChannelState :=
  Client.send serdeGetRequest (serdeOption sA) ch ("address") GetRequest.Get

/-- `Connection::transaction_data`: delegates to `Client::send` with command
`transaction_data`. -/
def Client.transaction_data {S D : Type} (sS : Serde S) (sD : Serde D)
    (ch : ChannelState) (request : S) : Except Error D × ChannelState :=
  Client.send sS sD ch ("transaction_data") request

/-- `Connection::identity_proof`: delegates to `Client::send` with command
`identity`. -/
def Client.identity_proof {S D : Type} (sS : Serde S) (sD : Serde D)
    (ch : ChannelState) (request : S) : Except Error D × ChannelState :=
  Client.send sS sD ch ("identity") request

/-- `Connection::sign_with_transaction_data`: delegates to `Client::send` with
command `sign_with_transaction_data`. -/
def Client.sign_with_transaction_data {S D : Type} (sS : Serde S) (sD : Serde D)
    (ch : ChannelState) (request : S) : Except Error D × ChannelState :=
  Client.send sS sD ch ("sign_with_transaction_data") request

/-- The fixed enumerated set of command identifiers of the wire protocol. -/
def commandSet : List String :=
  [("sync"), ("sign"), ("address"), ("transaction_data"), ("identity"),
   ("sign_with_transaction_data")]

/-- A concrete codec for `Bool` payloads, used to exercise the generic
operations on explicit inputs. -/
def serdeBool : Serde Bool :=
  ⟨fun b => .ok (Json.bool b),
   fun j =>
     match j with
     | Json.bool b => .ok b
     | _ => .error ("invalid type: expected a boolean")⟩

/-- A codec whose serializer always fails, exercising the encode-failure
path. -/
def serdeNever : Serde Bool :=
  ⟨fun _ => .error ("key must be a string"),
   fun _ => .error ("key must be a string")⟩

/-- The serialized envelope of a command identifier and a request body already
encoded to JSON. -/
def envelope (c : String) (jp : Json) : Json :=
  Json.obj [(commandKey, Json.str c), (requestKey, jp)]

/-- The hypotheses of the lemmas below: the payload encodes to `jp`, so the
envelope serializes to the rendered two-field object. -/
theorem to_string_request {S : Type} (sS : Serde S) (c : String) (r : S) (jp : Json)
    (hser : sS.ser r = .ok jp) :
    SerdeJson.to_string (serdeRequest sS) ⟨c, r⟩ = .ok (Json.render (envelope c jp)) := by
  simp [SerdeJson.to_string, serdeRequest, Request.toJson, envelope, hser]

/-- When the request body cannot be encoded, `Client::send` aborts with
`SerializationError` and the channel state is untouched. -/
theorem send_ser_fail {S D : Type} (sS : Serde S) (sD : Serde D) (c : String) (r : S)
    (e : String) (hser : sS.ser r = .error e) (ch : ChannelState) :
    Client.send sS sD ch c r = (.error (.serializationError e), ch) := by
  simp [Client.send, SerdeJson.to_string, serdeRequest, Request.toJson, hser]

/-- When the sink send fails, `Client::send` surfaces the transport error and
consumes nothing. -/
theorem send_transport_fail {S D : Type} (sS : Serde S) (sD : Serde D) (c : String)
    (r : S) (jp : Json) (hser : sS.ser r = .ok jp) (werr : String)
    (inbound : List (Except String Msg)) (sent : List Msg) :
    Client.send sS sD ⟨some werr, inbound, sent⟩ c r
      = (.error (.webSocket werr), ⟨some werr, inbound, sent⟩) := by
  simp [Client.send, to_string_request sS c r jp hser]

/-- When the next inbound item is a text message that decodes to `v`, the
exchange returns `Ok v`, consumes that item and logs the sent envelope. -/
theorem send_text_ok {S D : Type} (sS : Serde S) (sD : Serde D) (c : String) (r : S)
    (jp : Json) (hser : sS.ser r = .ok jp) (m : String) (v : D)
    (hdec : SerdeJson.from_str sD m = .ok v)
    (rest : List (Except String Msg)) (sent : List Msg) :
    Client.send sS sD ⟨none, .ok (Msg.text m) :: rest, sent⟩ c r
      = (.ok v, ⟨none, rest, sent ++ [Msg.text (Json.render (envelope c jp))]⟩) := by
  simp [Client.send, to_string_request sS c r jp hser, hdec]

/-- When the next inbound item is a text message that fails to decode, the
exchange fails with `SerializationError` carrying the decode failure. -/
theorem send_text_err {S D : Type} (sS : Serde S) (sD : Serde D) (c : String) (r : S)
    (jp : Json) (hser : sS.ser r = .ok jp) (m : String) (e : String)
    (hdec : SerdeJson.from_str sD m = .error e)
    (rest : List (Except String Msg)) (sent : List Msg) :
    Client.send sS sD ⟨none, .ok (Msg.text m) :: rest, sent⟩ c r
      = (.error (.serializationError e), ⟨none, rest, sent ++ [Msg.text (Json.render (envelope c jp))]⟩) := by
  simp [Client.send, to_string_request sS c r jp hser, hdec]

/-- When the next inbound item is any non-text message, the exchange fails
with `InvalidMessageFormat`. -/
theorem send_non_text {S D : Type} (sS : Serde S) (sD : Serde D) (c : String) (r : S)
    (jp : Json) (hser : sS.ser r = .ok jp) (m : Msg) (hm : ∀ s, m ≠ Msg.text s)
    (rest : List (Except String Msg)) (sent : List Msg) :
    Client.send sS sD ⟨none, .ok m :: rest, sent⟩ c r
      = (.error .invalidMessageFormat,
          ⟨none, rest, sent ++ [Msg.text (Json.render (envelope c jp))]⟩) := by
  cases m with
  | text s => exact absurd rfl (hm s)
  | binary b => simp [Client.send, to_string_request sS c r jp hser]
  | ping b => simp [Client.send, to_string_request sS c r jp hser]
  | pong b => simp [Client.send, to_string_request sS c r jp hser]
  | close f => simp [Client.send, to_string_request sS c r jp hser]
  | frame b => simp [Client.send, to_string_request sS c r jp hser]

/-- When the next inbound item is a stream-level transport error, the exchange
surfaces it as `WebSocket`. -/
theorem send_recv_err {S D : Type} (sS : Serde S) (sD : Serde D) (c : String) (r : S)
    (jp : Json) (hser : sS.ser r = .ok jp) (werr : String)
    (rest : List (Except String Msg)) (sent : List Msg) :
    Client.send sS sD ⟨none, .error werr :: rest, sent⟩ c r
      = (.error (.webSocket werr), ⟨none, rest, sent ++ [Msg.text (Json.render (envelope c jp))]⟩) := by
  simp [Client.send, to_string_request sS c r jp hser]

/-- When the stream yields no further item, the exchange fails with
`EndOfStream`. -/
theorem send_eos {S D : Type} (sS : Serde S) (sD : Serde D) (c : String) (r : S)
    (jp : Json) (hser : sS.ser r = .ok jp) (sent : List Msg) :
    Client.send sS sD ⟨none, [], sent⟩ c r
      = (.error .endOfStream, ⟨none, [], sent ++ [Msg.text (Json.render (envelope c jp))]⟩) := by
  simp [Client.send, to_string_request sS c r jp hser]

/-- After a successful send, exactly the head of the inbound queue is
consumed, whatever it is. -/
theorem send_inbound_tail {S D : Type} (sS : Serde S) (sD : Serde D) (c : String)
    (r : S) (jp : Json) (hser : sS.ser r = .ok jp)
    (inbound : List (Except String Msg)) (sent : List Msg) :
    (Client.send sS sD ⟨none, inbound, sent⟩ c r).2.inbound = inbound.tail := by
  cases inbound with
  | nil => simp [send_eos sS sD c r jp hser sent]
  | cons head rest =>
    cases head with
    | error werr => simp [send_recv_err sS sD c r jp hser werr rest sent]
    | ok m =>
      cases m with
      | text s =>
        cases hdec : SerdeJson.from_str sD s with
        | ok v => simp [send_text_ok sS sD c r jp hser s v hdec rest sent]
        | error e => simp [send_text_err sS sD c r jp hser s e hdec rest sent]
      | binary b => simp [send_non_text sS sD c r jp hser (.binary b) (by intro s h; cases h) rest sent]
      | ping b => simp [send_non_text sS sD c r jp hser (.ping b) (by intro s h; cases h) rest sent]
      | pong b => simp [send_non_text sS sD c r jp hser (.pong b) (by intro s h; cases h) rest sent]
      | close f => simp [send_non_text sS sD c r jp hser (.close f) (by intro s h; cases h) rest sent]
      | frame b => simp [send_non_text sS sD c r jp hser (.frame b) (by intro s h; cases h) rest sent]

/-- After a successful send, the exchange ends in `EndOfStream` exactly when
the stream yields no item at all. -/
theorem send_eos_iff {S D : Type} (sS : Serde S) (sD : Serde D) (c : String)
    (r : S) (jp : Json) (hser : sS.ser r = .ok jp)
    (inbound : List (Except String Msg)) (sent : List Msg) :
    (Client.send sS sD ⟨none, inbound, sent⟩ c r).1 = .error .endOfStream ↔ inbound = [] := by
  cases inbound with
  | nil => simp [send_eos sS sD c r jp hser sent]
  | cons head rest =>
    cases head with
    | error werr => simp [send_recv_err sS sD c r jp hser werr rest sent]
    | ok m =>
      cases m with
      | text s =>
        cases hdec : SerdeJson.from_str sD s with
        | ok v => simp [send_text_ok sS sD c r jp hser s v hdec rest sent]
        | error e => simp [send_text_err sS sD c r jp hser s e hdec rest sent]
      | binary b => simp [send_non_text sS sD c r jp hser (.binary b) (by intro s h; cases h) rest sent]
      | ping b => simp [send_non_text sS sD c r jp hser (.ping b) (by intro s h; cases h) rest sent]
      | pong b => simp [send_non_text sS sD c r jp hser (.pong b) (by intro s h; cases h) rest sent]
      | close f => simp [send_non_text sS sD c r jp hser (.close f) (by intro s h; cases h) rest sent]
      | frame b => simp [send_non_text sS sD c r jp hser (.frame b) (by intro s h; cases h) rest sent]

/-- After a successful send, the sent log grows by exactly the rendered
two-field envelope, whatever the inbound stream does. -/
theorem send_sent_log {S D : Type} (sS : Serde S) (sD : Serde D) (c : String)
    (r : S) (jp : Json) (hser : sS.ser r = .ok jp)
    (inbound : List (Except String Msg)) (sent : List Msg) :
    (Client.send sS sD ⟨none, inbound, sent⟩ c r).2.sent
      = sent ++ [Msg.text (Json.render (envelope c jp))] := by
  cases inbound with
  | nil => simp [send_eos sS sD c r jp hser sent]
  | cons head rest =>
    cases head with
    | error werr => simp [send_recv_err sS sD c r jp hser werr rest sent]
    | ok m =>
      cases m with
      | text s =>
        cases hdec : SerdeJson.from_str sD s with
        | ok v => simp [send_text_ok sS sD c r jp hser s v hdec rest sent]
        | error e => simp [send_text_err sS sD c r jp hser s e hdec rest sent]
      | binary b => simp [send_non_text sS sD c r jp hser (.binary b) (by intro s h; cases h) rest sent]
      | ping b => simp [send_non_text sS sD c r jp hser (.ping b) (by intro s h; cases h) rest sent]
      | pong b => simp [send_non_text sS sD c r jp hser (.pong b) (by intro s h; cases h) rest sent]
      | close f => simp [send_non_text sS sD c r jp hser (.close f) (by intro s h; cases h) rest sent]
      | frame b => simp [send_non_text sS sD c r jp hser (.frame b) (by intro s h; cases h) rest sent]

/-- C1: For every one of the six public operations and every reply value `v` of
that operation's expected reply type, if after the request is sent the
channel's next inbound message is a text message containing a correct encoding
of `v` (a text that decodes to exactly `v`), then the operation returns `Ok`
with exactly the decoded value `v`. -/
theorem six_operations_return_decoded_reply
    {S D A : Type} (sS : Serde S) (sD : Serde D) (sA : Serde A)
    (r : S) (jp : Json) (hser : sS.ser r = .ok jp)
    (rest : List (Except String Msg)) (sent : List Msg)
    (s : String) (v : D) (hdec : SerdeJson.from_str sD s = .ok v)
    (sa : String) (va : Option A)
    (hdeca : SerdeJson.from_str (serdeOption sA) sa = .ok va) :
    (Client.sync sS sD ⟨none, .ok (Msg.text s) :: rest, sent⟩ r).1 = .ok v ∧
    (Client.sign sS sD ⟨none, .ok (Msg.text s) :: rest, sent⟩ r).1 = .ok v ∧
    (Client.address sA ⟨none, .ok (Msg.text sa) :: rest, sent⟩).1 = .ok va ∧
    (Client.transaction_data sS sD ⟨none, .ok (Msg.text s) :: rest, sent⟩ r).1 = .ok v ∧
    (Client.identity_proof sS sD ⟨none, .ok (Msg.text s) :: rest, sent⟩ r).1 = .ok v ∧
    (Client.sign_with_transaction_data sS sD ⟨none, .ok (Msg.text s) :: rest, sent⟩ r).1
      = .ok v :=
  ⟨congrArg Prod.fst (send_text_ok sS sD ("sync") r jp hser s v hdec rest sent),
   congrArg Prod.fst (send_text_ok sS sD ("sign") r jp hser s v hdec rest sent),
   congrArg Prod.fst (send_text_ok serdeGetRequest (serdeOption sA) ("address")
     GetRequest.Get (Json.str ("get")) rfl sa va hdeca rest sent),
   congrArg Prod.fst (send_text_ok sS sD ("transaction_data") r jp hser s v hdec rest sent),
   congrArg Prod.fst (send_text_ok sS sD ("identity") r jp hser s v hdec rest sent),
   congrArg Prod.fst (send_text_ok sS sD ("sign_with_transaction_data") r jp hser s v hdec
     rest sent)⟩

/-- C1 exercised at concrete inputs: `Bool` payloads, the reply text "true"
decoding to `true`, and the address reply text "null" decoding to `none`. -/
theorem six_operations_return_decoded_reply_check :
    (serdeBool.ser true = .ok (Json.bool true) ∧
     SerdeJson.from_str serdeBool ("true") = .ok true ∧
     SerdeJson.from_str (serdeOption serdeBool) ("null") = .ok (none : Option Bool)) ∧
    ((Client.sync serdeBool serdeBool ⟨none, [.ok (Msg.text ("true"))], []⟩ true).1
        = .ok true ∧
     (Client.sign serdeBool serdeBool ⟨none, [.ok (Msg.text ("true"))], []⟩ true).1
        = .ok true ∧
     (Client.address serdeBool ⟨none, [.ok (Msg.text ("null"))], []⟩).1 = .ok none ∧
     (Client.transaction_data serdeBool serdeBool ⟨none, [.ok (Msg.text ("true"))], []⟩
        true).1 = .ok true ∧
     (Client.identity_proof serdeBool serdeBool ⟨none, [.ok (Msg.text ("true"))], []⟩
        true).1 = .ok true ∧
     (Client.sign_with_transaction_data serdeBool serdeBool
        ⟨none, [.ok (Msg.text ("true"))], []⟩ true).1 = .ok true) :=
  ⟨⟨by decide, by decide, by decide⟩,
   six_operations_return_decoded_reply serdeBool serdeBool serdeBool true (Json.bool true)
     (by decide) [] [] ("true") true (by decide) ("null") none (by decide)⟩

/-- C2: For every operation, the single outbound frame is a text message
encoding an object with exactly the two fields `command` and `request` and
nothing more; the command string is the operation's fixed identifier from the
enumerated set; in particular `address` sends command "address" with the
sentinel "get" marker as its payload and returns `none` when the server
replies with a null address. -/
theorem outbound_frame_is_tagged_two_field_envelope
    {S D A : Type} (sS : Serde S) (sD : Serde D) (sA : Serde A)
    (r : S) (jp : Json) (hser : sS.ser r = .ok jp)
    (inbound : List (Except String Msg)) (sent : List Msg)
    (sa : String) (hnull : Json.parse sa = .ok Json.null)
    (resta : List (Except String Msg)) :
    ((Client.sync sS sD ⟨none, inbound, sent⟩ r).2.sent
        = sent ++ [Msg.text (Json.render (envelope ("sync") jp))]
      ∧ ("sync") ∈ commandSet) ∧
    ((Client.sign sS sD ⟨none, inbound, sent⟩ r).2.sent
        = sent ++ [Msg.text (Json.render (envelope ("sign") jp))]
      ∧ ("sign") ∈ commandSet) ∧
    ((Client.address sA ⟨none, inbound, sent⟩).2.sent
        = sent ++ [Msg.text (Json.render (envelope ("address") (Json.str ("get"))))]
      ∧ ("address") ∈ commandSet) ∧
    ((Client.transaction_data sS sD ⟨none, inbound, sent⟩ r).2.sent
        = sent ++ [Msg.text (Json.render (envelope ("transaction_data") jp))]
      ∧ ("transaction_data") ∈ commandSet) ∧
    ((Client.identity_proof sS sD ⟨none, inbound, sent⟩ r).2.sent
        = sent ++ [Msg.text (Json.render (envelope ("identity") jp))]
      ∧ ("identity") ∈ commandSet) ∧
    ((Client.sign_with_transaction_data sS sD ⟨none, inbound, sent⟩ r).2.sent
        = sent ++ [Msg.text (Json.render (envelope ("sign_with_transaction_data") jp))]
      ∧ ("sign_with_transaction_data") ∈ commandSet) ∧
    Client.address sA ⟨none, .ok (Msg.text sa) :: resta, sent⟩
      = (.ok none,
         ⟨none, resta,
          sent ++ [Msg.text (Json.render (envelope ("address") (Json.str ("get"))))]⟩) := by
  have hdeca : SerdeJson.from_str (serdeOption sA) sa = .ok none := by
    simp [SerdeJson.from_str, hnull, serdeOption]
  exact
    ⟨⟨send_sent_log sS sD ("sync") r jp hser inbound sent, by simp [commandSet]⟩,
     ⟨send_sent_log sS sD ("sign") r jp hser inbound sent, by simp [commandSet]⟩,
     ⟨send_sent_log serdeGetRequest (serdeOption sA) ("address") GetRequest.Get
        (Json.str ("get")) rfl inbound sent, by simp [commandSet]⟩,
     ⟨send_sent_log sS sD ("transaction_data") r jp hser inbound sent, by simp [commandSet]⟩,
     ⟨send_sent_log sS sD ("identity") r jp hser inbound sent, by simp [commandSet]⟩,
     ⟨send_sent_log sS sD ("sign_with_transaction_data") r jp hser inbound sent,
      by simp [commandSet]⟩,
     send_text_ok serdeGetRequest (serdeOption sA) ("address") GetRequest.Get
       (Json.str ("get")) rfl sa none hdeca resta sent⟩

/-- C2 exercised at concrete inputs, with the address reply "null". -/
theorem outbound_frame_is_tagged_two_field_envelope_check :
    (serdeBool.ser true = .ok (Json.bool true) ∧ Json.parse ("null") = .ok Json.null) ∧
    (((Client.sync serdeBool serdeBool ⟨none, [], []⟩ true).2.sent
        = [] ++ [Msg.text (Json.render (envelope ("sync") (Json.bool true)))]
      ∧ ("sync") ∈ commandSet) ∧
     ((Client.sign serdeBool serdeBool ⟨none, [], []⟩ true).2.sent
        = [] ++ [Msg.text (Json.render (envelope ("sign") (Json.bool true)))]
      ∧ ("sign") ∈ commandSet) ∧
     ((Client.address serdeBool ⟨none, [], []⟩).2.sent
        = [] ++ [Msg.text (Json.render (envelope ("address") (Json.str ("get"))))]
      ∧ ("address") ∈ commandSet) ∧
     ((Client.transaction_data serdeBool serdeBool ⟨none, [], []⟩ true).2.sent
        = [] ++ [Msg.text (Json.render (envelope ("transaction_data") (Json.bool true)))]
      ∧ ("transaction_data") ∈ commandSet) ∧
     ((Client.identity_proof serdeBool serdeBool ⟨none, [], []⟩ true).2.sent
        = [] ++ [Msg.text (Json.render (envelope ("identity") (Json.bool true)))]
      ∧ ("identity") ∈ commandSet) ∧
     ((Client.sign_with_transaction_data serdeBool serdeBool ⟨none, [], []⟩ true).2.sent
        = [] ++ [Msg.text (Json.render (envelope ("sign_with_transaction_data")
            (Json.bool true)))]
      ∧ ("sign_with_transaction_data") ∈ commandSet) ∧
     Client.address serdeBool ⟨none, .ok (Msg.text ("null")) :: [], []⟩
       = (.ok none,
          ⟨none, [],
           [] ++ [Msg.text (Json.render (envelope ("address") (Json.str ("get"))))]⟩)) :=
  ⟨⟨by decide, by decide⟩,
   outbound_frame_is_tagged_two_field_envelope serdeBool serdeBool serdeBool true
     (Json.bool true) (by decide) [] [] ("null") (by decide) []⟩

/-- C3: For every operation, if after a successful send the channel yields a
non-text inbound message (binary or control frame), then the operation fails
with `InvalidMessageFormat`, regardless of the message's content. -/
theorem non_text_reply_fails_invalid_message_format
    {S D A : Type} (sS : Serde S) (sD : Serde D) (sA : Serde A)
    (r : S) (jp : Json) (hser : sS.ser r = .ok jp)
    (m : Msg) (hm : ∀ s, m ≠ Msg.text s)
    (rest : List (Except String Msg)) (sent : List Msg) :
    (Client.sync sS sD ⟨none, .ok m :: rest, sent⟩ r).1 = .error .invalidMessageFormat ∧
    (Client.sign sS sD ⟨none, .ok m :: rest, sent⟩ r).1 = .error .invalidMessageFormat ∧
    (Client.address sA ⟨none, .ok m :: rest, sent⟩).1 = .error .invalidMessageFormat ∧
    (Client.transaction_data sS sD ⟨none, .ok m :: rest, sent⟩ r).1
      = .error .invalidMessageFormat ∧
    (Client.identity_proof sS sD ⟨none, .ok m :: rest, sent⟩ r).1
      = .error .invalidMessageFormat ∧
    (Client.sign_with_transaction_data sS sD ⟨none, .ok m :: rest, sent⟩ r).1
      = .error .invalidMessageFormat :=
  ⟨congrArg Prod.fst (send_non_text sS sD ("sync") r jp hser m hm rest sent),
   congrArg Prod.fst (send_non_text sS sD ("sign") r jp hser m hm rest sent),
   congrArg Prod.fst (send_non_text serdeGetRequest (serdeOption sA) ("address")
     GetRequest.Get (Json.str ("get")) rfl m hm rest sent),
   congrArg Prod.fst (send_non_text sS sD ("transaction_data") r jp hser m hm rest sent),
   congrArg Prod.fst (send_non_text sS sD ("identity") r jp hser m hm rest sent),
   congrArg Prod.fst (send_non_text sS sD ("sign_with_transaction_data") r jp hser m hm
     rest sent)⟩

/-- C3 exercised at a concrete binary inbound message. -/
theorem non_text_reply_fails_invalid_message_format_check :
    (serdeBool.ser true = .ok (Json.bool true) ∧
     (∀ s, Msg.binary [0] ≠ Msg.text s)) ∧
    ((Client.sync serdeBool serdeBool ⟨none, [.ok (Msg.binary [0])], []⟩ true).1
        = .error .invalidMessageFormat ∧
     (Client.sign serdeBool serdeBool ⟨none, [.ok (Msg.binary [0])], []⟩ true).1
        = .error .invalidMessageFormat ∧
     (Client.address serdeBool ⟨none, [.ok (Msg.binary [0])], []⟩).1
        = .error .invalidMessageFormat ∧
     (Client.transaction_data serdeBool serdeBool ⟨none, [.ok (Msg.binary [0])], []⟩
        true).1 = .error .invalidMessageFormat ∧
     (Client.identity_proof serdeBool serdeBool ⟨none, [.ok (Msg.binary [0])], []⟩
        true).1 = .error .invalidMessageFormat ∧
     (Client.sign_with_transaction_data serdeBool serdeBool
        ⟨none, [.ok (Msg.binary [0])], []⟩ true).1 = .error .invalidMessageFormat) :=
  ⟨⟨by decide, fun _ h => Msg.noConfusion h⟩,
   non_text_reply_fails_invalid_message_format serdeBool serdeBool serdeBool true
     (Json.bool true) (by decide) (Msg.binary [0]) (fun _ h => Msg.noConfusion h) [] []⟩

/-- C4: For every operation, if the channel closes immediately after accepting
the send (end of stream, no message yielded while awaiting the reply), then
the operation fails with `EndOfStream`. -/
theorem closed_stream_fails_end_of_stream
    {S D A : Type} (sS : Serde S) (sD : Serde D) (sA : Serde A)
    (r : S) (jp : Json) (hser : sS.ser r = .ok jp) (sent : List Msg) :
    (Client.sync sS sD ⟨none, [], sent⟩ r).1 = .error .endOfStream ∧
    (Client.sign sS sD ⟨none, [], sent⟩ r).1 = .error .endOfStream ∧
    (Client.address sA ⟨none, [], sent⟩).1 = .error .endOfStream ∧
    (Client.transaction_data sS sD ⟨none, [], sent⟩ r).1 = .error .endOfStream ∧
    (Client.identity_proof sS sD ⟨none, [], sent⟩ r).1 = .error .endOfStream ∧
    (Client.sign_with_transaction_data sS sD ⟨none, [], sent⟩ r).1 = .error .endOfStream :=
  ⟨congrArg Prod.fst (send_eos sS sD ("sync") r jp hser sent),
   congrArg Prod.fst (send_eos sS sD ("sign") r jp hser sent),
   congrArg Prod.fst (send_eos serdeGetRequest (serdeOption sA) ("address") GetRequest.Get
     (Json.str ("get")) rfl sent),
   congrArg Prod.fst (send_eos sS sD ("transaction_data") r jp hser sent),
   congrArg Prod.fst (send_eos sS sD ("identity") r jp hser sent),
   congrArg Prod.fst (send_eos sS sD ("sign_with_transaction_data") r jp hser sent)⟩

/-- C4 exercised at a concrete empty inbound stream. -/
theorem closed_stream_fails_end_of_stream_check :
    serdeBool.ser true = .ok (Json.bool true) ∧
    ((Client.sync serdeBool serdeBool ⟨none, [], []⟩ true).1 = .error .endOfStream ∧
     (Client.sign serdeBool serdeBool ⟨none, [], []⟩ true).1 = .error .endOfStream ∧
     (Client.address serdeBool ⟨none, [], []⟩).1 = .error .endOfStream ∧
     (Client.transaction_data serdeBool serdeBool ⟨none, [], []⟩ true).1
        = .error .endOfStream ∧
     (Client.identity_proof serdeBool serdeBool ⟨none, [], []⟩ true).1
        = .error .endOfStream ∧
     (Client.sign_with_transaction_data serdeBool serdeBool ⟨none, [], []⟩ true).1
        = .error .endOfStream) :=
  ⟨by decide,
   closed_stream_fails_end_of_stream serdeBool serdeBool serdeBool true (Json.bool true)
     (by decide) []⟩

/-- C5: For every operation, if the channel yields a text message that does
not decode into the operation's expected reply type, the operation fails with
`SerializationError` carrying the underlying decoding failure, and never
silently succeeds with a wrong or default value. -/
theorem undecodable_text_fails_serialization_error
    {S D A : Type} (sS : Serde S) (sD : Serde D) (sA : Serde A)
    (r : S) (jp : Json) (hser : sS.ser r = .ok jp)
    (s e : String) (hdec : SerdeJson.from_str sD s = .error e)
    (sa ea : String) (hdeca : SerdeJson.from_str (serdeOption sA) sa = .error ea)
    (rest : List (Except String Msg)) (sent : List Msg) :
    (Client.sync sS sD ⟨none, .ok (Msg.text s) :: rest, sent⟩ r).1
      = .error (.serializationError e) ∧
    (Client.sign sS sD ⟨none, .ok (Msg.text s) :: rest, sent⟩ r).1
      = .error (.serializationError e) ∧
    (Client.address sA ⟨none, .ok (Msg.text sa) :: rest, sent⟩).1
      = .error (.serializationError ea) ∧
    (Client.transaction_data sS sD ⟨none, .ok (Msg.text s) :: rest, sent⟩ r).1
      = .error (.serializationError e) ∧
    (Client.identity_proof sS sD ⟨none, .ok (Msg.text s) :: rest, sent⟩ r).1
      = .error (.serializationError e) ∧
    (Client.sign_with_transaction_data sS sD ⟨none, .ok (Msg.text s) :: rest, sent⟩ r).1
      = .error (.serializationError e) :=
  ⟨congrArg Prod.fst (send_text_err sS sD ("sync") r jp hser s e hdec rest sent),
   congrArg Prod.fst (send_text_err sS sD ("sign") r jp hser s e hdec rest sent),
   congrArg Prod.fst (send_text_err serdeGetRequest (serdeOption sA) ("address")
     GetRequest.Get (Json.str ("get")) rfl sa ea hdeca rest sent),
   congrArg Prod.fst (send_text_err sS sD ("transaction_data") r jp hser s e hdec rest sent),
   congrArg Prod.fst (send_text_err sS sD ("identity") r jp hser s e hdec rest sent),
   congrArg Prod.fst (send_text_err sS sD ("sign_with_transaction_data") r jp hser s e hdec
     rest sent)⟩

/-- C5 exercised at a concrete undecodable reply text. -/
theorem undecodable_text_fails_serialization_error_check :
    (serdeBool.ser true = .ok (Json.bool true) ∧
     SerdeJson.from_str serdeBool ("null") = .error ("invalid type: expected a boolean") ∧
     SerdeJson.from_str (serdeOption serdeBool) ("[")
        = .error ("unterminated array")) ∧
    ((Client.sync serdeBool serdeBool ⟨none, [.ok (Msg.text ("null"))], []⟩ true).1
        = .error (.serializationError ("invalid type: expected a boolean")) ∧
     (Client.sign serdeBool serdeBool ⟨none, [.ok (Msg.text ("null"))], []⟩ true).1
        = .error (.serializationError ("invalid type: expected a boolean")) ∧
     (Client.address serdeBool ⟨none, [.ok (Msg.text ("["))], []⟩).1
        = .error (.serializationError ("unterminated array")) ∧
     (Client.transaction_data serdeBool serdeBool ⟨none, [.ok (Msg.text ("null"))], []⟩
        true).1 = .error (.serializationError ("invalid type: expected a boolean")) ∧
     (Client.identity_proof serdeBool serdeBool ⟨none, [.ok (Msg.text ("null"))], []⟩
        true).1 = .error (.serializationError ("invalid type: expected a boolean")) ∧
     (Client.sign_with_transaction_data serdeBool serdeBool
        ⟨none, [.ok (Msg.text ("null"))], []⟩ true).1
        = .error (.serializationError ("invalid type: expected a boolean"))) :=
  ⟨⟨by decide, by decide, by decide⟩,
   undecodable_text_fails_serialization_error serdeBool serdeBool serdeBool true
     (Json.bool true) (by decide) ("null") ("invalid type: expected a boolean")
     (by decide) ("[") ("unterminated array") (by decide) [] []⟩

/-- C6: For every operation, any transport-level failure reported by the
channel, whether while sending the encoded request or while awaiting the
inbound reply, is surfaced to the caller as the `WebSocket` variant wrapping
the channel's native error detail, and is not retried: on a send failure the
channel state is untouched, and on a receive failure exactly the offending
item is consumed. -/
theorem transport_errors_surface_as_web_socket
    {S D A : Type} (sS : Serde S) (sD : Serde D) (sA : Serde A)
    (r : S) (jp : Json) (hser : sS.ser r = .ok jp) (werr : String)
    (inbound rest : List (Except String Msg)) (sent : List Msg) :
    (Client.sync sS sD ⟨some werr, inbound, sent⟩ r
        = (.error (.webSocket werr), ⟨some werr, inbound, sent⟩) ∧
     Client.sign sS sD ⟨some werr, inbound, sent⟩ r
        = (.error (.webSocket werr), ⟨some werr, inbound, sent⟩) ∧
     Client.address sA ⟨some werr, inbound, sent⟩
        = (.error (.webSocket werr), ⟨some werr, inbound, sent⟩) ∧
     Client.transaction_data sS sD ⟨some werr, inbound, sent⟩ r
        = (.error (.webSocket werr), ⟨some werr, inbound, sent⟩) ∧
     Client.identity_proof sS sD ⟨some werr, inbound, sent⟩ r
        = (.error (.webSocket werr), ⟨some werr, inbound, sent⟩) ∧
     Client.sign_with_transaction_data sS sD ⟨some werr, inbound, sent⟩ r
        = (.error (.webSocket werr), ⟨some werr, inbound, sent⟩)) ∧
    (Client.sync sS sD ⟨none, .error werr :: rest, sent⟩ r
        = (.error (.webSocket werr),
           ⟨none, rest, sent ++ [Msg.text (Json.render (envelope ("sync") jp))]⟩) ∧
     Client.sign sS sD ⟨none, .error werr :: rest, sent⟩ r
        = (.error (.webSocket werr),
           ⟨none, rest, sent ++ [Msg.text (Json.render (envelope ("sign") jp))]⟩) ∧
     Client.address sA ⟨none, .error werr :: rest, sent⟩
        = (.error (.webSocket werr),
           ⟨none, rest,
            sent ++ [Msg.text (Json.render (envelope ("address") (Json.str ("get"))))]⟩) ∧
     Client.transaction_data sS sD ⟨none, .error werr :: rest, sent⟩ r
        = (.error (.webSocket werr),
           ⟨none, rest,
            sent ++ [Msg.text (Json.render (envelope ("transaction_data") jp))]⟩) ∧
     Client.identity_proof sS sD ⟨none, .error werr :: rest, sent⟩ r
        = (.error (.webSocket werr),
           ⟨none, rest, sent ++ [Msg.text (Json.render (envelope ("identity") jp))]⟩) ∧
     Client.sign_with_transaction_data sS sD ⟨none, .error werr :: rest, sent⟩ r
        = (.error (.webSocket werr),
           ⟨none, rest,
            sent ++ [Msg.text (Json.render (envelope ("sign_with_transaction_data")
              jp))]⟩)) :=
  ⟨⟨send_transport_fail sS sD ("sync") r jp hser werr inbound sent,
    send_transport_fail sS sD ("sign") r jp hser werr inbound sent,
    send_transport_fail serdeGetRequest (serdeOption sA) ("address") GetRequest.Get
      (Json.str ("get")) rfl werr inbound sent,
    send_transport_fail sS sD ("transaction_data") r jp hser werr inbound sent,
    send_transport_fail sS sD ("identity") r jp hser werr inbound sent,
    send_transport_fail sS sD ("sign_with_transaction_data") r jp hser werr inbound sent⟩,
   ⟨send_recv_err sS sD ("sync") r jp hser werr rest sent,
    send_recv_err sS sD ("sign") r jp hser werr rest sent,
    send_recv_err serdeGetRequest (serdeOption sA) ("address") GetRequest.Get
      (Json.str ("get")) rfl werr rest sent,
    send_recv_err sS sD ("transaction_data") r jp hser werr rest sent,
    send_recv_err sS sD ("identity") r jp hser werr rest sent,
    send_recv_err sS sD ("sign_with_transaction_data") r jp hser werr rest sent⟩⟩

/-- C6 exercised at a concrete transport error, on the sync operation in both
failure positions (the remaining operations are instances of the same
applications). -/
theorem transport_errors_surface_as_web_socket_check :
    serdeBool.ser true = .ok (Json.bool true) ∧
    (Client.sync serdeBool serdeBool ⟨some ("broken pipe"), [], []⟩ true
        = (.error (.webSocket ("broken pipe")), ⟨some ("broken pipe"), [], []⟩) ∧
     Client.sign serdeBool serdeBool ⟨some ("broken pipe"), [], []⟩ true
        = (.error (.webSocket ("broken pipe")), ⟨some ("broken pipe"), [], []⟩) ∧
     Client.address serdeBool ⟨some ("broken pipe"), [], []⟩
        = (.error (.webSocket ("broken pipe")), ⟨some ("broken pipe"), [], []⟩) ∧
     Client.transaction_data serdeBool serdeBool ⟨some ("broken pipe"), [], []⟩ true
        = (.error (.webSocket ("broken pipe")), ⟨some ("broken pipe"), [], []⟩) ∧
     Client.identity_proof serdeBool serdeBool ⟨some ("broken pipe"), [], []⟩ true
        = (.error (.webSocket ("broken pipe")), ⟨some ("broken pipe"), [], []⟩) ∧
     Client.sign_with_transaction_data serdeBool serdeBool ⟨some ("broken pipe"), [], []⟩
        true
        = (.error (.webSocket ("broken pipe")), ⟨some ("broken pipe"), [], []⟩)) ∧
    (Client.sync serdeBool serdeBool ⟨none, .error ("broken pipe") :: [], []⟩ true
        = (.error (.webSocket ("broken pipe")),
           ⟨none, [],
            [] ++ [Msg.text (Json.render (envelope ("sync") (Json.bool true)))]⟩) ∧
     Client.sign serdeBool serdeBool ⟨none, .error ("broken pipe") :: [], []⟩ true
        = (.error (.webSocket ("broken pipe")),
           ⟨none, [],
            [] ++ [Msg.text (Json.render (envelope ("sign") (Json.bool true)))]⟩) ∧
     Client.address serdeBool ⟨none, .error ("broken pipe") :: [], []⟩
        = (.error (.webSocket ("broken pipe")),
           ⟨none, [],
            [] ++ [Msg.text (Json.render (envelope ("address") (Json.str ("get"))))]⟩) ∧
     Client.transaction_data serdeBool serdeBool ⟨none, .error ("broken pipe") :: [], []⟩
        true
        = (.error (.webSocket ("broken pipe")),
           ⟨none, [],
            [] ++ [Msg.text (Json.render (envelope ("transaction_data")
              (Json.bool true)))]⟩) ∧
     Client.identity_proof serdeBool serdeBool ⟨none, .error ("broken pipe") :: [], []⟩
        true
        = (.error (.webSocket ("broken pipe")),
           ⟨none, [],
            [] ++ [Msg.text (Json.render (envelope ("identity") (Json.bool true)))]⟩) ∧
     Client.sign_with_transaction_data serdeBool serdeBool
        ⟨none, .error ("broken pipe") :: [], []⟩ true
        = (.error (.webSocket ("broken pipe")),
           ⟨none, [],
            [] ++ [Msg.text (Json.render (envelope ("sign_with_transaction_data")
              (Json.bool true)))]⟩)) :=
  have h := transport_errors_surface_as_web_socket serdeBool serdeBool serdeBool true
    (Json.bool true) (by decide) ("broken pipe") [] [] []
  ⟨by decide, h.1, h.2⟩

/-- C7: For every operation, if the request value cannot be encoded, the
operation fails with `SerializationError` carrying the encoding failure, and
no message whatsoever is sent over the channel: the exchange aborts before
transmission, leaving the channel state (in particular its sent-message log
and its inbound queue) unchanged.  The `address` operation's payload is the
sentinel `GetRequest::Get`, whose encoding always succeeds, stated as the
final conjunct. -/
theorem encode_failure_aborts_before_send
    {S D : Type} (sS : Serde S) (sD : Serde D)
    (r : S) (e : String) (hser : sS.ser r = .error e) (ch : ChannelState) :
    Client.sync sS sD ch r = (.error (.serializationError e), ch) ∧
    Client.sign sS sD ch r = (.error (.serializationError e), ch) ∧
    Client.transaction_data sS sD ch r = (.error (.serializationError e), ch) ∧
    Client.identity_proof sS sD ch r = (.error (.serializationError e), ch) ∧
    Client.sign_with_transaction_data sS sD ch r = (.error (.serializationError e), ch) ∧
    serdeGetRequest.ser GetRequest.Get = .ok (Json.str ("get")) :=
  ⟨send_ser_fail sS sD ("sync") r e hser ch,
   send_ser_fail sS sD ("sign") r e hser ch,
   send_ser_fail sS sD ("transaction_data") r e hser ch,
   send_ser_fail sS sD ("identity") r e hser ch,
   send_ser_fail sS sD ("sign_with_transaction_data") r e hser ch,
   rfl⟩

/-- C7 exercised at a concrete unencodable request against a non-empty
channel state. -/
theorem encode_failure_aborts_before_send_check :
    serdeNever.ser true = .error ("key must be a string") ∧
    (Client.sync serdeNever serdeBool
        ⟨none, [.ok (Msg.text ("true"))], [Msg.text ("old")]⟩ true
       = (.error (.serializationError ("key must be a string")),
          ⟨none, [.ok (Msg.text ("true"))], [Msg.text ("old")]⟩) ∧
     Client.sign serdeNever serdeBool
        ⟨none, [.ok (Msg.text ("true"))], [Msg.text ("old")]⟩ true
       = (.error (.serializationError ("key must be a string")),
          ⟨none, [.ok (Msg.text ("true"))], [Msg.text ("old")]⟩) ∧
     Client.transaction_data serdeNever serdeBool
        ⟨none, [.ok (Msg.text ("true"))], [Msg.text ("old")]⟩ true
       = (.error (.serializationError ("key must be a string")),
          ⟨none, [.ok (Msg.text ("true"))], [Msg.text ("old")]⟩) ∧
     Client.identity_proof serdeNever serdeBool
        ⟨none, [.ok (Msg.text ("true"))], [Msg.text ("old")]⟩ true
       = (.error (.serializationError ("key must be a string")),
          ⟨none, [.ok (Msg.text ("true"))], [Msg.text ("old")]⟩) ∧
     Client.sign_with_transaction_data serdeNever serdeBool
        ⟨none, [.ok (Msg.text ("true"))], [Msg.text ("old")]⟩ true
       = (.error (.serializationError ("key must be a string")),
          ⟨none, [.ok (Msg.text ("true"))], [Msg.text ("old")]⟩) ∧
     serdeGetRequest.ser GetRequest.Get = .ok (Json.str ("get"))) :=
  ⟨by decide,
   encode_failure_aborts_before_send serdeNever serdeBool true ("key must be a string")
     (by decide) ⟨none, [.ok (Msg.text ("true"))], [Msg.text ("old")]⟩⟩

/-- C8: For every command identifier `c` and every request payload `p`,
encoding the envelope pairing `c` with `p` and then decoding the resulting
text as an envelope reproduces the command `c` and a payload equal to `p`.
The payload codec is a parameter (the payload types live in collaborating
crates), so its round trip at `p` is a hypothesis, as is the text-layer round
trip of the rendered envelope (the `serde_json` text layer is external
code). -/
theorem envelope_roundtrip
    {R : Type} (sR : Serde R) (c : String) (p : R) (jp : Json)
    (hser : sR.ser p = .ok jp) (hde : sR.de jp = .ok p)
    (hrt : Json.parse (Json.render (envelope c jp)) = .ok (envelope c jp)) :
    SerdeJson.to_string (serdeRequest sR) ⟨c, p⟩ = .ok (Json.render (envelope c jp)) ∧
    SerdeJson.from_str (serdeRequest sR) (Json.render (envelope c jp)) = .ok ⟨c, p⟩ := by
  refine ⟨to_string_request sR c p jp hser, ?_⟩
  have h2 : SerdeJson.from_str (serdeRequest sR) (Json.render (envelope c jp))
      = (serdeRequest sR).de (envelope c jp) := by
    simp [SerdeJson.from_str, hrt]
  rw [h2]
  simp [serdeRequest, Request.fromJson, envelope, Request.fromJsonFields,
    commandKey, requestKey, hde]

/-- C8 exercised at a concrete command and payload. -/
theorem envelope_roundtrip_check :
    (serdeBool.ser true = .ok (Json.bool true) ∧
     serdeBool.de (Json.bool true) = .ok true ∧
     Json.parse (Json.render (envelope ("sync") (Json.bool true)))
        = .ok (envelope ("sync") (Json.bool true))) ∧
    (SerdeJson.to_string (serdeRequest serdeBool) ⟨("sync"), true⟩
        = .ok (Json.render (envelope ("sync") (Json.bool true))) ∧
     SerdeJson.from_str (serdeRequest serdeBool)
        (Json.render (envelope ("sync") (Json.bool true))) = .ok ⟨("sync"), true⟩) :=
  ⟨⟨by decide, by decide, by decide⟩,
   envelope_roundtrip serdeBool ("sync") true (Json.bool true) (by decide) (by decide)
     (by decide)⟩

/-- C9: Each of the six public operations is observationally equal to the
single generic exchange function `Client.send` instantiated with that
operation's fixed command identifier and its request/reply codecs: for every
request value and every channel state, the operation and the instantiated
generic exchange produce the same result and the same channel state (in
particular the same outbound traffic). -/
theorem operations_are_send_instances
    {S D A : Type} (sS : Serde S) (sD : Serde D) (sA : Serde A)
    (ch : ChannelState) (r : S) :
    Client.sync sS sD ch r = Client.send sS sD ch ("sync") r ∧
    Client.sign sS sD ch r = Client.send sS sD ch ("sign") r ∧
    Client.address sA ch
      = Client.send serdeGetRequest (serdeOption sA) ch ("address") GetRequest.Get ∧
    Client.transaction_data sS sD ch r = Client.send sS sD ch ("transaction_data") r ∧
    Client.identity_proof sS sD ch r = Client.send sS sD ch ("identity") r ∧
    Client.sign_with_transaction_data sS sD ch r
      = Client.send sS sD ch ("sign_with_transaction_data") r :=
  ⟨rfl, rfl, rfl, rfl, rfl, rfl⟩

/-- C10: For every operation, at most the head item is consumed from the
inbound stream per exchange (exactly one whenever the stream yields one), and
the receive branch classifies it solely by frame kind: a WebSocket Close
frame, a graceful connection close while awaiting the reply, yields
`InvalidMessageFormat` and not `EndOfStream`; `EndOfStream` is returned
exactly when the stream yields no item at all. -/
theorem receive_classification_close_and_eos
    {S D A : Type} (sS : Serde S) (sD : Serde D) (sA : Serde A)
    (r : S) (jp : Json) (hser : sS.ser r = .ok jp)
    (cf : Option (Nat × String)) (rest inbound : List (Except String Msg))
    (sent : List Msg) :
    ((Client.sync sS sD ⟨none, .ok (Msg.close cf) :: rest, sent⟩ r).1
        = .error .invalidMessageFormat ∧
     (Client.sign sS sD ⟨none, .ok (Msg.close cf) :: rest, sent⟩ r).1
        = .error .invalidMessageFormat ∧
     (Client.address sA ⟨none, .ok (Msg.close cf) :: rest, sent⟩).1
        = .error .invalidMessageFormat ∧
     (Client.transaction_data sS sD ⟨none, .ok (Msg.close cf) :: rest, sent⟩ r).1
        = .error .invalidMessageFormat ∧
     (Client.identity_proof sS sD ⟨none, .ok (Msg.close cf) :: rest, sent⟩ r).1
        = .error .invalidMessageFormat ∧
     (Client.sign_with_transaction_data sS sD ⟨none, .ok (Msg.close cf) :: rest, sent⟩
        r).1 = .error .invalidMessageFormat) ∧
    ((Client.sync sS sD ⟨none, inbound, sent⟩ r).2.inbound = inbound.tail ∧
     (Client.sign sS sD ⟨none, inbound, sent⟩ r).2.inbound = inbound.tail ∧
     (Client.address sA ⟨none, inbound, sent⟩).2.inbound = inbound.tail ∧
     (Client.transaction_data sS sD ⟨none, inbound, sent⟩ r).2.inbound = inbound.tail ∧
     (Client.identity_proof sS sD ⟨none, inbound, sent⟩ r).2.inbound = inbound.tail ∧
     (Client.sign_with_transaction_data sS sD ⟨none, inbound, sent⟩ r).2.inbound
        = inbound.tail) ∧
    (((Client.sync sS sD ⟨none, inbound, sent⟩ r).1 = .error .endOfStream
        ↔ inbound = []) ∧
     ((Client.sign sS sD ⟨none, inbound, sent⟩ r).1 = .error .endOfStream
        ↔ inbound = []) ∧
     ((Client.address sA ⟨none, inbound, sent⟩).1 = .error .endOfStream
        ↔ inbound = []) ∧
     ((Client.transaction_data sS sD ⟨none, inbound, sent⟩ r).1 = .error .endOfStream
        ↔ inbound = []) ∧
     ((Client.identity_proof sS sD ⟨none, inbound, sent⟩ r).1 = .error .endOfStream
        ↔ inbound = []) ∧
     ((Client.sign_with_transaction_data sS sD ⟨none, inbound, sent⟩ r).1
        = .error .endOfStream ↔ inbound = [])) :=
  ⟨⟨congrArg Prod.fst (send_non_text sS sD ("sync") r jp hser (Msg.close cf)
      (fun _ h => Msg.noConfusion h) rest sent),
    congrArg Prod.fst (send_non_text sS sD ("sign") r jp hser (Msg.close cf)
      (fun _ h => Msg.noConfusion h) rest sent),
    congrArg Prod.fst (send_non_text serdeGetRequest (serdeOption sA) ("address")
      GetRequest.Get (Json.str ("get")) rfl (Msg.close cf)
      (fun _ h => Msg.noConfusion h) rest sent),
    congrArg Prod.fst (send_non_text sS sD ("transaction_data") r jp hser (Msg.close cf)
      (fun _ h => Msg.noConfusion h) rest sent),
    congrArg Prod.fst (send_non_text sS sD ("identity") r jp hser (Msg.close cf)
      (fun _ h => Msg.noConfusion h) rest sent),
    congrArg Prod.fst (send_non_text sS sD ("sign_with_transaction_data") r jp hser
      (Msg.close cf) (fun _ h => Msg.noConfusion h) rest sent)⟩,
   ⟨send_inbound_tail sS sD ("sync") r jp hser inbound sent,
    send_inbound_tail sS sD ("sign") r jp hser inbound sent,
    send_inbound_tail serdeGetRequest (serdeOption sA) ("address") GetRequest.Get
      (Json.str ("get")) rfl inbound sent,
    send_inbound_tail sS sD ("transaction_data") r jp hser inbound sent,
    send_inbound_tail sS sD ("identity") r jp hser inbound sent,
    send_inbound_tail sS sD ("sign_with_transaction_data") r jp hser inbound sent⟩,
   ⟨send_eos_iff sS sD ("sync") r jp hser inbound sent,
    send_eos_iff sS sD ("sign") r jp hser inbound sent,
    send_eos_iff serdeGetRequest (serdeOption sA) ("address") GetRequest.Get
      (Json.str ("get")) rfl inbound sent,
    send_eos_iff sS sD ("transaction_data") r jp hser inbound sent,
    send_eos_iff sS sD ("identity") r jp hser inbound sent,
    send_eos_iff sS sD ("sign_with_transaction_data") r jp hser inbound sent⟩⟩

/-- C10 exercised at a concrete close frame and a concrete one-item inbound
stream. -/
theorem receive_classification_close_and_eos_check :
    serdeBool.ser true = .ok (Json.bool true) ∧
    (((Client.sync serdeBool serdeBool
          ⟨none, .ok (Msg.close (some (1000, ("bye")))) :: [], []⟩ true).1
        = .error .invalidMessageFormat ∧
      (Client.sign serdeBool serdeBool
          ⟨none, .ok (Msg.close (some (1000, ("bye")))) :: [], []⟩ true).1
        = .error .invalidMessageFormat ∧
      (Client.address serdeBool
          ⟨none, .ok (Msg.close (some (1000, ("bye")))) :: [], []⟩).1
        = .error .invalidMessageFormat ∧
      (Client.transaction_data serdeBool serdeBool
          ⟨none, .ok (Msg.close (some (1000, ("bye")))) :: [], []⟩ true).1
        = .error .invalidMessageFormat ∧
      (Client.identity_proof serdeBool serdeBool
          ⟨none, .ok (Msg.close (some (1000, ("bye")))) :: [], []⟩ true).1
        = .error .invalidMessageFormat ∧
      (Client.sign_with_transaction_data serdeBool serdeBool
          ⟨none, .ok (Msg.close (some (1000, ("bye")))) :: [], []⟩ true).1
        = .error .invalidMessageFormat) ∧
     ((Client.sync serdeBool serdeBool ⟨none, [.error ("boom")], []⟩ true).2.inbound
        = List.tail [.error ("boom")] ∧
      (Client.sign serdeBool serdeBool ⟨none, [.error ("boom")], []⟩ true).2.inbound
        = List.tail [.error ("boom")] ∧
      (Client.address serdeBool ⟨none, [.error ("boom")], []⟩).2.inbound
        = List.tail [.error ("boom")] ∧
      (Client.transaction_data serdeBool serdeBool ⟨none, [.error ("boom")], []⟩
          true).2.inbound = List.tail [.error ("boom")] ∧
      (Client.identity_proof serdeBool serdeBool ⟨none, [.error ("boom")], []⟩
          true).2.inbound = List.tail [.error ("boom")] ∧
      (Client.sign_with_transaction_data serdeBool serdeBool
          ⟨none, [.error ("boom")], []⟩ true).2.inbound
        = List.tail [.error ("boom")]) ∧
     (((Client.sync serdeBool serdeBool ⟨none, [.error ("boom")], []⟩ true).1
          = .error .endOfStream ↔ ([.error ("boom")] : List (Except String Msg)) = []) ∧
      ((Client.sign serdeBool serdeBool ⟨none, [.error ("boom")], []⟩ true).1
          = .error .endOfStream ↔ ([.error ("boom")] : List (Except String Msg)) = []) ∧
      ((Client.address serdeBool ⟨none, [.error ("boom")], []⟩).1
          = .error .endOfStream ↔ ([.error ("boom")] : List (Except String Msg)) = []) ∧
      ((Client.transaction_data serdeBool serdeBool ⟨none, [.error ("boom")], []⟩
          true).1
          = .error .endOfStream ↔ ([.error ("boom")] : List (Except String Msg)) = []) ∧
      ((Client.identity_proof serdeBool serdeBool ⟨none, [.error ("boom")], []⟩ true).1
          = .error .endOfStream ↔ ([.error ("boom")] : List (Except String Msg)) = []) ∧
      ((Client.sign_with_transaction_data serdeBool serdeBool
          ⟨none, [.error ("boom")], []⟩ true).1
          = .error .endOfStream
        ↔ ([.error ("boom")] : List (Except String Msg)) = []))) :=
  ⟨by decide,
   receive_classification_close_and_eos serdeBool serdeBool serdeBool true
     (Json.bool true) (by decide) (some (1000, ("bye"))) [] [.error ("boom")] []⟩

end MantaPay
